import Mathlib

/-!
Verification development for the pynwb gallery scripts
(docs/gallery/general/linking_data.py and docs/gallery/general/read_basics.py).

The scripts are sequential tutorial code calling into the pynwb library.
The library itself is not part of the sources, so its persistence contract
(session containers, named time series, writing to container files, external
links resolved at read time) is modelled from the specification, while every
computation the scripts perform themselves (spike-time windowing, channel
reversal, handle opening and closing, statement structure) is embedded
directly from the script sources.
-/

set_option autoImplicit false
set_option maxRecDepth 100000

namespace NwbGallery

/-- Modelled from the spec: the in-memory handle a script holds on a data
array.  The pynwb library (not under src) gives a TimeSeries either a fresh
in-memory array, or a lazy dataset handle pointing at a record already stored
in a container file; H5DataIO wraps a handle with an explicit link_data flag. -/
inductive DataHandle where
  | fresh (rows : List (List Int))
  | stored (file : String) (tsname : String)
  | wrapped (inner : DataHandle) (link_data : Bool)
  deriving Repr, DecidableEq

/-- Modelled from the spec: a time-series-like record with a name, a data
array and a timestamp array (pynwb TimeSeries, not under src). -/
structure TimeSeries where
  name : String
  source : String
  data : DataHandle
  unit : String
  timestamps : List Int
  deriving Repr, DecidableEq

/-- Modelled from the spec: a session-level container holding named child
records grouped into categories (acquisition, stimulus); pynwb NWBFile is not
under src. -/
structure NWBFile where
  source : String
  session_description : String
  identifier : String
  acquisition : List (String × TimeSeries)
  stimulus : List (String × TimeSeries)
  deriving Repr, DecidableEq

/-- Modelled from the spec: the NWBFile constructor builds a fresh session
container with empty acquisition and stimulus categories. -/
def newNWBFile (source session_description identifier : String) : NWBFile :=
  { source := source
    session_description := session_description
    identifier := identifier
    acquisition := []
    stimulus := [] }

/-- Association lookup by name, first match wins. -/
def assocFind {β : Type} (k : String) : List (String × β) → Option β
  | [] => none
  | (k2, v) :: rest => if k2 = k then some v else assocFind k rest

/-- Modelled from the spec: add_acquisition places the record, under its own
name, into the acquisition category of the container. -/
def NWBFile.add_acquisition (f : NWBFile) (ts : TimeSeries) : NWBFile :=
  { f with acquisition := (ts.name, ts) :: f.acquisition }

/-- Modelled from the spec: get_acquisition retrieves the named record from
the acquisition category. -/
def NWBFile.get_acquisition (f : NWBFile) (n : String) : Option TimeSeries :=
  assocFind n f.acquisition

/-- Modelled from the spec: a data array as stored inside a container file is
either a copy of the rows or an external link, a reference to a record stored
in another container file. -/
inductive StoredData where
  | copy (rows : List (List Int))
  | elink (file : String) (tsname : String)
  deriving Repr, DecidableEq

/-- Modelled from the spec: a time series as stored inside a container file is
either a full record or an external link to a record in another file. -/
inductive StoredTS where
  | record (name : String) (source : String) (data : StoredData)
      (unit : String) (timestamps : List Int)
  | tslink (file : String) (tsname : String)
  deriving Repr, DecidableEq

/-- Modelled from the spec: the on-disk form of a session container file. -/
structure StoredNWBFile where
  source : String
  session_description : String
  identifier : String
  acquisition : List (String × StoredTS)
  deriving Repr, DecidableEq

/-- Modelled from the spec: the file system maps file names to stored
container files. -/
abbrev FileSystem := List (String × StoredNWBFile)

def lookupFile (fs : FileSystem) (fname : String) : Option StoredNWBFile :=
  assocFind fname fs

def lookupStoredTS (fs : FileSystem) (fname tsname : String) : Option StoredTS :=
  (lookupFile fs fname).bind (fun sf => assocFind tsname sf.acquisition)

/-- The data rows of a stored record whose data is a plain copy. -/
def StoredTS.directRows : StoredTS → Option (List (List Int))
  | .record _ _ (.copy rows) _ _ => some rows
  | _ => none

/-- The stored data field of a stored record. -/
def StoredTS.ownData : StoredTS → Option StoredData
  | .record _ _ d _ _ => some d
  | .tslink _ _ => none

/-- Modelled from the spec: resolving stored data against the file system;
an external link is a reference resolved by looking up the source file. -/
def resolveStoredData (fs : FileSystem) : StoredData → Option (List (List Int))
  | .copy rows => some rows
  | .elink f n => (lookupStoredTS fs f n).bind StoredTS.directRows

/-- Modelled from the spec: resolving the data of a stored time series, going
through at most one container-level external link. -/
def resolveStoredTS (fs : FileSystem) : StoredTS → Option (List (List Int))
  | .record _ _ d _ _ => resolveStoredData fs d
  | .tslink f n =>
      (lookupStoredTS fs f n).bind
        (fun sts => sts.ownData.bind (resolveStoredData fs))

/-- Modelled from the spec: reading the actual rows behind an in-memory data
handle; lazy dataset handles are resolved against the file system. -/
def resolveHandle (fs : FileSystem) : DataHandle → Option (List (List Int))
  | .fresh rows => some rows
  | .stored f n => (lookupStoredTS fs f n).bind (resolveStoredTS fs)
  | .wrapped inner _ => resolveHandle fs inner

/-- Modelled from the spec: serializing a data handle on write.  Fresh data is
copied; a lazy handle into an already-written file becomes an external link
when linking is requested and is otherwise copied; an H5DataIO wrapper
overrides the default link behaviour for its dataset. -/
def serializeData (fs : FileSystem) (defaultLink : Bool) :
    DataHandle → Option StoredData
  | .fresh rows => some (.copy rows)
  | .stored f n =>
      if defaultLink then some (.elink f n)
      else (resolveHandle fs (.stored f n)).map .copy
  | .wrapped inner ld => serializeData fs ld inner

/-- Modelled from the spec: serializing one time series.  When a shared build
manager is passed around, a container that was itself read from another file
(its data handle points at the stored record of the same name) is detected as
already written and becomes a container-level external link. -/
def serializeTS (fs : FileSystem) (managerShared defaultLink : Bool)
    (ts : TimeSeries) : Option StoredTS :=
  match ts.data with
  | .stored f n =>
      if managerShared ∧ n = ts.name then some (.tslink f n)
      else (serializeData fs defaultLink ts.data).map
        (fun d => .record ts.name ts.source d ts.unit ts.timestamps)
  | d =>
      (serializeData fs defaultLink d).map
        (fun sd => .record ts.name ts.source sd ts.unit ts.timestamps)

def serializeAcq (fs : FileSystem) (managerShared defaultLink : Bool) :
    List (String × TimeSeries) → Option (List (String × StoredTS))
  | [] => some []
  | (n, ts) :: rest =>
      (serializeTS fs managerShared defaultLink ts).bind
        (fun sts => (serializeAcq fs managerShared defaultLink rest).map
          (fun r => (n, sts) :: r))

def serializeFile (fs : FileSystem) (managerShared defaultLink : Bool)
    (f : NWBFile) : Option StoredNWBFile :=
  (serializeAcq fs managerShared defaultLink f.acquisition).map
    (fun acq =>
      { source := f.source
        session_description := f.session_description
        identifier := f.identifier
        acquisition := acq })

/-- Update the entry for one file name, leaving every other entry in place. -/
def updateAssoc : FileSystem → String → StoredNWBFile → FileSystem
  | [], fname, sf => [(fname, sf)]
  | (g, old) :: rest, fname, sf =>
      if g = fname then (fname, sf) :: rest
      else (g, old) :: updateAssoc rest fname sf

/-- Modelled from the spec: NWBHDF5IO write persists the container under the
given file name, serializing each record. -/
def writeFile (fs : FileSystem) (fname : String) (f : NWBFile)
    (managerShared defaultLink : Bool) : Option FileSystem :=
  (serializeFile fs managerShared defaultLink f).map (updateAssoc fs fname)

/-- Modelled from the spec: reopening one stored record yields an in-memory
time series whose data is a lazy dataset handle; a container-level external
link is resolved at read time to the record in the source file. -/
def deserializeTS (fs : FileSystem) (fname : String) :
    StoredTS → Option TimeSeries
  | .record n src _ u t =>
      some { name := n, source := src, data := .stored fname n,
             unit := u, timestamps := t }
  | .tslink f n =>
      (lookupStoredTS fs f n).bind
        (fun sts =>
          match sts with
          | .record n2 src _ u t =>
              some { name := n2, source := src, data := .stored f n2,
                     unit := u, timestamps := t }
          | .tslink _ _ => none)

def deserializeAcq (fs : FileSystem) (fname : String) :
    List (String × StoredTS) → Option (List (String × TimeSeries))
  | [] => some []
  | (n, sts) :: rest =>
      (deserializeTS fs fname sts).bind
        (fun ts => (deserializeAcq fs fname rest).map
          (fun r => (n, ts) :: r))

/-- Modelled from the spec: NWBHDF5IO read reopens a stored container file as
a session container object. -/
def readFile (fs : FileSystem) (fname : String) : Option NWBFile :=
  (lookupFile fs fname).bind
    (fun sf => (deserializeAcq fs fname sf.acquisition).map
      (fun acq =>
        { source := sf.source
          session_description := sf.session_description
          identifier := sf.identifier
          acquisition := acq
          stimulus := [] }))

/-! Concrete state of docs/gallery/general/linking_data.py, embedded
statement by statement from the source. -/

/-- numpy arange: the integers 0, 1, ..., n-1. -/
def np_arange (n : Nat) : List Int := (List.range n).map Int.ofNat

/-- numpy reshape to a two-dimensional r by c array; numpy requires the
element count to match exactly. -/
def np_reshape (xs : List Int) (r c : Nat) : Option (List (List Int)) :=
  if xs.length = r * c then
    some ((List.range r).map
      (fun i => (List.range c).map (fun j => xs.getD (i * c + j) 0)))
  else none

/-- data = np.arange(1000).reshape((100, 10)) at linking_data.py line 67. -/
def dataRows : List (List Int) := (np_reshape (np_arange 1000) 100 10).getD []

/-- timestamps = np.arange(100) at linking_data.py line 68. -/
def timestampsArr : List Int := np_arange 100

def filename1 : String := "external1_example.nwb"
def filename2 : String := "external2_example.nwb"
def filename3 : String := "external_linkcontainer_example.nwb"
def filename4 : String := "external_linkdataset_example.nwb"

/-- Fallback record used when unwrapping Option results of the pipeline. -/
def defaultTS : TimeSeries :=
  { name := "", source := "", data := .fresh [], unit := "", timestamps := [] }

/-- test_ts1 at linking_data.py lines 81 to 85. -/
def test_ts1 : TimeSeries :=
  { name := "test_timeseries1", source := "PyNWB tutorial",
    data := .fresh dataRows, unit := "SIunit", timestamps := timestampsArr }

/-- nwbfile1 with test_ts1 added, linking_data.py lines 75 to 86. -/
def nwbfile1 : NWBFile :=
  (newNWBFile "PyNWB tutorial" "demonstrate external files" "NWBE1").add_acquisition test_ts1

/-- File system after io.write(nwbfile1) and close, lines 88 to 90. -/
def fs1 : FileSystem := (writeFile [] filename1 nwbfile1 false false).getD []

/-- test_ts2 at linking_data.py lines 99 to 103. -/
def test_ts2 : TimeSeries :=
  { name := "test_timeseries2", source := "PyNWB tutorial",
    data := .fresh dataRows, unit := "SIunit", timestamps := timestampsArr }

/-- nwbfile2 with test_ts2 added, linking_data.py lines 93 to 104. -/
def nwbfile2 : NWBFile :=
  (newNWBFile "PyNWB tutorial" "demonstrate external files" "NWBE2").add_acquisition test_ts2

/-- File system after io.write(nwbfile2) and close, lines 106 to 108. -/
def fs2 : FileSystem := (writeFile fs1 filename2 nwbfile2 false false).getD fs1

/-- nwbfile1 = io1.read() at line 136 (reopening filename1). -/
def nwbfile1_read : NWBFile := (readFile fs2 filename1).getD (newNWBFile "" "" "")

/-- timeseries_1 = nwbfile1.get_acquisition('test_timeseries1') at line 137. -/
def timeseries_1 : TimeSeries :=
  (nwbfile1_read.get_acquisition "test_timeseries1").getD defaultTS

/-- timeseries_1_data = timeseries_1.data at line 138. -/
def timeseries_1_data : DataHandle := timeseries_1.data

/-- test_ts4 at lines 147 to 151: its data is the lazy handle of the record
stored in filename1. -/
def test_ts4 : TimeSeries :=
  { name := "test_timeseries4", source := "PyNWB tutorial",
    data := timeseries_1_data, unit := "SIunit", timestamps := timestampsArr }

/-- test_ts5 at lines 164 to 169: its data is timeseries_1_data wrapped in
H5DataIO with link_data=True. -/
def test_ts5 : TimeSeries :=
  { name := "test_timeseries5", source := "PyNWB tutorial",
    data := .wrapped timeseries_1_data true, unit := "SIunit",
    timestamps := timestampsArr }

/-- nwbfile4 with test_ts4 and test_ts5 added, lines 121 to 170. -/
def nwbfile4 : NWBFile :=
  (((newNWBFile "PyNWB tutorial" "demonstrate external files" "NWBE4").add_acquisition
    test_ts4).add_acquisition test_ts5)

/-- File system after io4.write(nwbfile4, link_data=True), lines 178 to 181. -/
def fs4 : FileSystem := (writeFile fs2 filename4 nwbfile4 false true).getD fs2

/-- nwbfile1 = io1.read() at line 218 (reopened with the shared manager). -/
def nwbfile1_read2 : NWBFile := (readFile fs4 filename1).getD (newNWBFile "" "" "")

/-- timeseries_1 at line 219, after the second read of filename1. -/
def timeseries_1b : TimeSeries :=
  (nwbfile1_read2.get_acquisition "test_timeseries1").getD defaultTS

/-- nwbfile2 = io2.read() at line 223 (reopened with the shared manager). -/
def nwbfile2_read : NWBFile := (readFile fs4 filename2).getD (newNWBFile "" "" "")

/-- timeseries_2 at line 224. -/
def timeseries_2 : TimeSeries :=
  (nwbfile2_read.get_acquisition "test_timeseries2").getD defaultTS

/-- nwbfile3 with the two read-back time series added, lines 236 to 242. -/
def nwbfile3 : NWBFile :=
  (((newNWBFile "PyNWB tutorial" "demonstrate external files" "NWBE3").add_acquisition
    timeseries_1b).add_acquisition timeseries_2)

/-- File system after io3.write(nwbfile3) with the shared manager,
lines 245 to 247. -/
def fs3 : FileSystem := (writeFile fs4 filename3 nwbfile3 true false).getD fs4

/-- Compares the first dimension of the resolved data array of a time series
with the length of its timestamps array. -/
def dimMatch (fs : FileSystem) (ts : TimeSeries) : Bool :=
  match resolveHandle fs ts.data with
  | some rows => rows.length == ts.timestamps.length
  | none => false

/-! Handle discipline of the scripts (claim C2).  Each NWBHDF5IO construction
in the source is one open event with a fresh id, each .close() call one close
event, in source order. -/

/-- An open or close event on an NWBHDF5IO handle. -/
inductive HandleEvent where
  | openH (id : Nat)
  | closeH (id : Nat)
  deriving Repr, DecidableEq

/-- Handle events of linking_data.py in source order: io (lines 88, 90),
io (lines 106, 108), io1 (line 135, never closed), io4 (lines 178, 181),
io1 (line 217, never closed), io2 (line 222, never closed),
io3 (lines 245, 247). -/
def linkingHandleTrace : List HandleEvent :=
  [.openH 0, .closeH 0, .openH 1, .closeH 1, .openH 2, .openH 3, .closeH 3,
   .openH 4, .openH 5, .openH 6, .closeH 6]

/-- Handle events of read_basics.py: io (line 122, never closed). -/
def readBasicsHandleTrace : List HandleEvent := [.openH 0]

/-- The handles opened during a trace and never closed afterwards. -/
def unclosedHandles (tr : List HandleEvent) : List Nat :=
  tr.foldl
    (fun acc e =>
      match e with
      | .openH i => acc ++ [i]
      | .closeH i => acc.filter (fun j => j != i)) []

/-! Statement structure of the scripts (claim C4), top-level statements in
source order, classified by kind. -/

/-- Kinds of top-level Python statements occurring in the scripts. -/
inductive StmtKind where
  | importS
  | assignS
  | exprS
  | withS
  | forS
  | assertS
  | tryS
  | raiseS
  deriving Repr, DecidableEq

/-- Top-level statements of linking_data.py in source order (lines 58 to
247): imports, assignments and expression statements only. -/
def linkingStmts : List StmtKind :=
  [.importS, .importS, .importS, .importS, .importS,
   .assignS, .assignS, .assignS, .assignS, .assignS, .assignS, .assignS, .assignS,
   .assignS, .assignS, .exprS, .assignS, .exprS, .exprS,
   .assignS, .assignS, .exprS, .assignS, .exprS, .exprS,
   .assignS,
   .assignS, .assignS, .assignS, .assignS,
   .assignS, .exprS,
   .importS,
   .assignS, .exprS,
   .importS,
   .assignS, .exprS, .exprS,
   .importS,
   .assignS,
   .assignS, .assignS, .assignS,
   .assignS, .assignS, .assignS,
   .assignS, .exprS, .exprS,
   .assignS, .exprS, .exprS]

/-- Top-level statements of read_basics.py in source order (lines 28 to 319),
including the with block at line 103, the two for loops, and the assert at
line 302. -/
def readBasicsStmts : List StmtKind :=
  [.importS, .importS, .importS,
   .importS,
   .assignS, .assignS,
   .withS,
   .assignS, .assignS,
   .exprS, .exprS,
   .assignS, .assignS,
   .exprS,
   .assignS, .assignS, .assignS, .exprS,
   .assignS, .assignS, .exprS, .exprS,
   .assignS, .assignS, .assignS,
   .forS,
   .assignS, .exprS,
   .assertS,
   .assignS,
   .forS]

/-- A statement kind that catches or raises exceptions in place of the
external library. -/
def catchesOrRaises : StmtKind → Bool
  | .tryS => true
  | .raiseS => true
  | _ => false

/-- A statement kind that introduces a failure condition of the script's own
(a raise, or an assert that raises AssertionError when its condition is
false). -/
def introducesFailure : StmtKind → Bool
  | .raiseS => true
  | .assertS => true
  | _ => false

/-! Input dependence of the scripts (claim C6).  The values the scripts
compute are embedded as a straight-line program of named expressions; an
expression is a literal constant, a read of a command-line argument, a read
of an environment variable, or a read from a fixed external resource (the
remote archive or a local file). -/

/-- A value computed by a script. -/
inductive ScriptVal where
  | strV (s : String)
  | numV (q : ℚ)
  | colV (xs : List Int)
  | rowsV (rows : List (List Int))
  | remoteV (tag : String)
  | noneV
  deriving Repr, DecidableEq

/-- An input expression of a script run. -/
inductive ScriptExpr where
  | constE (v : ScriptVal)
  | argvE (i : Nat)
  | envE (x : String)
  | remoteE (url : String)
  deriving Repr, DecidableEq

/-- Whether the expression reads the command line or the environment. -/
def readsCLIorEnv : ScriptExpr → Bool
  | .argvE _ => true
  | .envE _ => true
  | _ => false

/-- Evaluation of one expression under a command line, an environment and a
fixed external world. -/
def evalExpr (argv : List String) (env : String → Option String)
    (world : String → ScriptVal) : ScriptExpr → ScriptVal
  | .constE v => v
  | .argvE i =>
      match argv.get? i with
      | some s => .strV s
      | none => .noneV
  | .envE x =>
      match env x with
      | some s => .strV s
      | none => .noneV
  | .remoteE u => world u

/-- Running a straight-line program: every named expression is evaluated. -/
def runScript (argv : List String) (env : String → Option String)
    (world : String → ScriptVal) (p : List (String × ScriptExpr)) :
    List (String × ScriptVal) :=
  p.map (fun pr => (pr.1, evalExpr argv env world pr.2))

/-- The input-determining values of linking_data.py: every one is a literal
constant from the source (lines 65 to 72); the files the script writes are
functions of these values alone. -/
def linkingInputs : List (String × ScriptExpr) :=
  [("start_time", .constE (.strV "2017-04-03T11:00:00")),
   ("create_date", .constE (.strV "2017-04-15T12:00:00")),
   ("data", .constE (.rowsV dataRows)),
   ("timestamps", .constE (.colV timestampsArr)),
   ("filename1", .constE (.strV filename1)),
   ("filename2", .constE (.strV filename2)),
   ("filename3", .constE (.strV filename3)),
   ("filename4", .constE (.strV filename4))]

/-- The input-determining values of read_basics.py: literal constants
(lines 101, 102, 195, 248, 249) and reads from the fixed remote archive
(lines 104, 105, 123); none reads argv or the environment. -/
def readBasicsInputs : List (String × ScriptExpr) :=
  [("dandiset_id", .constE (.strV "000004")),
   ("filepath", .constE (.strV "sub-P11HMH/sub-P11HMH_ses-20061101_ecephys+image.nwb")),
   ("s3_path", .remoteE "dandi:000004/draft/sub-P11HMH/sub-P11HMH_ses-20061101_ecephys+image.nwb"),
   ("nwbfile", .remoteE "s3_path"),
   ("frame_index", .constE (.numV 31)),
   ("before", .constE (.numV 1)),
   ("after", .constE (.numV 3))]

/-! Object sharing between containers (claim C7).  The arrays the linking
script allocates are given heap identifiers; a TimeSeries holds references to
the arrays it was constructed with. -/

/-- References held by one TimeSeries to script-allocated arrays. -/
structure TSRef where
  name : String
  dataRef : Nat
  tsRef : Nat
  deriving Repr, DecidableEq

/-- A container together with the array references of its records. -/
structure ContainerRef where
  identifier : String
  acquisitionRefs : List TSRef
  deriving Repr, DecidableEq

/-- Heap identifier of the array data = np.arange(1000).reshape((100, 10)),
allocated once at linking_data.py line 67. -/
def dataArrId : Nat := 0

/-- Heap identifier of the array timestamps = np.arange(100), allocated once
at line 68. -/
def timestampsArrId : Nat := 1

/-- test_ts1 references the shared arrays (lines 81 to 85). -/
def ts1Ref : TSRef :=
  { name := "test_timeseries1", dataRef := dataArrId, tsRef := timestampsArrId }

/-- test_ts2 references the same shared arrays (lines 99 to 103). -/
def ts2Ref : TSRef :=
  { name := "test_timeseries2", dataRef := dataArrId, tsRef := timestampsArrId }

/-- nwbfile1 holds test_ts1 (line 86). -/
def nwbfile1Ref : ContainerRef := { identifier := "NWBE1", acquisitionRefs := [ts1Ref] }

/-- nwbfile2 holds test_ts2 (line 104). -/
def nwbfile2Ref : ContainerRef := { identifier := "NWBE2", acquisitionRefs := [ts2Ref] }

/-- All array identifiers reachable from a container. -/
def mutableRefsOf (c : ContainerRef) : List Nat :=
  c.acquisitionRefs.flatMap (fun t => [t.dataRef, t.tsRef])

/-- Whether two containers reach a common script-created mutable array. -/
def sharesMutable (c1 c2 : ContainerRef) : Bool :=
  (mutableRefsOf c1).any (fun i => (mutableRefsOf c2).contains i)

/-- The heap of script-allocated arrays. -/
def ArrHeap : Type := Nat → List Int

/-- Mutating one array in the heap. -/
def writeArr (h : ArrHeap) (i : Nat) (v : List Int) : ArrHeap :=
  fun j => if j = i then v else h j

/-- Observing the data array of a record through its reference. -/
def readArr (h : ArrHeap) (t : TSRef) : List Int := h t.dataRef

/-! Spike-time windowing of read_basics.py (claim C8), lines 248 to 264. -/

/-- before = 1.0 at read_basics.py line 248 (in seconds). -/
def before : ℚ := 1

/-- after = 3.0 at read_basics.py line 249 (in seconds). -/
def after : ℚ := 3

/-- The aligned and filtered spike times of one trial, lines 259 to 263:
spike times shifted by the stimulus onset, then restricted to the open
window from minus before to after. -/
def alignedSpikes (unit_spike_times : List ℚ) (time : ℚ) : List ℚ :=
  (unit_spike_times.map (fun s => s - time)).filter
    (fun t => decide (-before < t) && decide (t < after))

/-- The list trial_spikes built by the inner loop at lines 256 to 264: one
aligned and filtered array per stimulus onset time. -/
def trialSpikes (unit_spike_times stim_on_times : List ℚ) : List (List ℚ) :=
  stim_on_times.map (fun time => alignedSpikes unit_spike_times time)

/-! Channel reversal of read_basics.py (claim C10), lines 198 and 317: an
image is indexed as frame rows, pixel rows, channel values, and the slice
with step minus one reverses the last dimension. -/

/-- The numpy operation image with ellipsis and reversed last axis, applied
to a three-dimensional array. -/
def reverseLastDim {α : Type} (a : List (List (List α))) : List (List (List α)) :=
  a.map (fun plane => plane.map List.reverse)

/-- The shape of a three-dimensional nested-list array: outer length and, per
plane, the plane length and the lengths of its rows. -/
def shape3 {α : Type} (a : List (List (List α))) : Nat × List (Nat × List Nat) :=
  (a.length, a.map (fun plane => (plane.length, plane.map List.length)))

/-! Concrete instances used by witness theorems. -/

/-- Small concrete rows for the round-trip witness. -/
def wit_rows : List (List Int) := [[1, 2], [3, 4]]

/-- Small concrete time series for the round-trip witness. -/
def wit_ts : TimeSeries :=
  { name := "ts", source := "s", data := .fresh wit_rows, unit := "u",
    timestamps := [5, 6] }

/-- File system obtained by writing the witness container to w.nwb. -/
def wit_fs : FileSystem :=
  (writeFile [] "w.nwb" ((newNWBFile "a" "b" "c").add_acquisition wit_ts)
    false false).getD []

/-! Helper lemmas shared by the claim theorems. -/

theorem lookupFile_updateAssoc_self (fs : FileSystem) (fname : String)
    (sf : StoredNWBFile) :
    lookupFile (updateAssoc fs fname sf) fname = some sf := by
  induction fs with
  | nil => simp [updateAssoc, lookupFile, assocFind]
  | cons p rest ih =>
      obtain ⟨g, old⟩ := p
      by_cases h : g = fname
      · simp [updateAssoc, h, lookupFile, assocFind]
      · simpa [updateAssoc, h, lookupFile, assocFind] using ih

theorem evalExpr_no_cli_env (a1 a2 : List String)
    (e1 e2 : String → Option String) (w : String → ScriptVal)
    (ex : ScriptExpr) (h : readsCLIorEnv ex = false) :
    evalExpr a1 e1 w ex = evalExpr a2 e2 w ex := by
  cases ex <;> simp_all [readsCLIorEnv, evalExpr]

theorem runScript_no_cli_env (p : List (String × ScriptExpr))
    (h : ∀ pr ∈ p, readsCLIorEnv pr.2 = false)
    (a1 a2 : List String) (e1 e2 : String → Option String)
    (w : String → ScriptVal) :
    runScript a1 e1 w p = runScript a2 e2 w p := by
  induction p with
  | nil => rfl
  | cons pr rest ih =>
      have hpr := h pr (by simp)
      have hrest : ∀ q ∈ rest, readsCLIorEnv q.2 = false := by
        intro q hq; exact h q (by simp [hq])
      simp only [runScript, List.map_cons] at ih ⊢
      rw [evalExpr_no_cli_env a1 a2 e1 e2 w pr.2 hpr]
      rw [show rest.map (fun q => (q.1, evalExpr a1 e1 w q.2)) =
            rest.map (fun q => (q.1, evalExpr a2 e2 w q.2)) from ih hrest]

/-! Claim theorems. -/

/-- C5: for every fresh session container and every TimeSeries ts, after
add_acquisition(ts) the container holds ts as a named child record in its
acquisition category, get_acquisition(ts.name) returns that same TimeSeries,
and the stimulus category stays empty, so the added record does not appear
there. -/
theorem add_acquisition_get (src sd ident : String) (ts : TimeSeries) :
    ((newNWBFile src sd ident).add_acquisition ts).acquisition = [(ts.name, ts)] ∧
    ((newNWBFile src sd ident).add_acquisition ts).get_acquisition ts.name = some ts ∧
    ((newNWBFile src sd ident).add_acquisition ts).stimulus = [] := by
  refine ⟨rfl, ?_, rfl⟩
  simp [NWBFile.get_acquisition, newNWBFile, NWBFile.add_acquisition, assocFind]

/-- C2 counterexample: it is false that every NWBHDF5IO handle opened by the
scripts is closed before the script ends; the unclosed sets are not both
empty. -/
theorem unclosed_handles_cex :
    ¬ (unclosedHandles linkingHandleTrace = [] ∧
       unclosedHandles readBasicsHandleTrace = []) := by decide

/-- C2 amended: the write handles of linking_data.py (io at lines 88 and 106,
io4, io3) are each closed, but the read handles io1 (opened at lines 135 and
217) and io2 (line 222) of linking_data.py and the handle io of
read_basics.py (line 122) are never closed. -/
theorem unclosed_handles_exact :
    unclosedHandles linkingHandleTrace = [2, 4, 5] ∧
    unclosedHandles readBasicsHandleTrace = [0] := by decide

/-- C4 counterexample: it is false that the scripts introduce no failure
condition of their own; the statement lists contain a failing kind (the
assert at read_basics.py line 302). -/
theorem error_handling_cex :
    ¬ ((linkingStmts ++ readBasicsStmts).all
        (fun s => !(catchesOrRaises s) && !(introducesFailure s)) = true) := by
  decide

/-- C4 amended: no statement of either script catches, transforms or raises
errors in place of the library (no try or raise anywhere), and the only
failure condition introduced by the scripts themselves is the single assert
at read_basics.py line 302. -/
theorem error_handling_amended :
    (linkingStmts ++ readBasicsStmts).all (fun s => !(catchesOrRaises s)) = true ∧
    linkingStmts.all (fun s => !(introducesFailure s)) = true ∧
    readBasicsStmts.filter introducesFailure = [.assertS] := by decide

/-- C6: the scripts read neither argv nor the environment: two runs that
differ only in the command line and the environment compute identical values
(and hence write identical files, these being functions of the computed
values alone). -/
theorem scripts_input_independent (a1 a2 : List String)
    (e1 e2 : String → Option String) (w : String → ScriptVal) :
    runScript a1 e1 w linkingInputs = runScript a2 e2 w linkingInputs ∧
    runScript a1 e1 w readBasicsInputs = runScript a2 e2 w readBasicsInputs := by
  constructor
  · exact runScript_no_cli_env linkingInputs (by decide) a1 a2 e1 e2 w
  · exact runScript_no_cli_env readBasicsInputs (by decide) a1 a2 e1 e2 w

/-- C7 counterexample: nwbfile1 and nwbfile2 are two distinct container
objects constructed by the linking script that reach a common script-created
mutable array (the shared data and timestamps arrays of lines 67 and 68). -/
theorem shared_state_cex :
    nwbfile1Ref ≠ nwbfile2Ref ∧ sharesMutable nwbfile1Ref nwbfile2Ref = true := by
  decide

/-- C7 amended: the linking script does share script-created mutable state
across distinct containers: test_ts1 in nwbfile1 and test_ts2 in nwbfile2
reference the same data and timestamps arrays, and mutating the shared data
array through the reference held by one container is observed through the
reference held by the other. -/
theorem shared_state_amended :
    sharesMutable nwbfile1Ref nwbfile2Ref = true ∧
    nwbfile1Ref ≠ nwbfile2Ref ∧
    ts1Ref.dataRef = ts2Ref.dataRef ∧
    (∀ (h : ArrHeap) (v : List Int),
      readArr (writeArr h ts1Ref.dataRef v) ts2Ref = v) := by
  refine ⟨by decide, by decide, rfl, ?_⟩
  intro h v
  simp [readArr, writeArr, ts1Ref, ts2Ref, dataArrId]

/-- C10: reversing the last dimension of a three-dimensional array, as the
BGR-to-RGB step does with the reversed slice, is an involution and preserves
the shape of the array. -/
theorem reverse_last_dim_involutive {α : Type} (a : List (List (List α))) :
    reverseLastDim (reverseLastDim a) = a ∧
    shape3 (reverseLastDim a) = shape3 a := by
  constructor
  · simp [reverseLastDim, List.map_map, Function.comp]
  · simp [reverseLastDim, shape3, List.map_map, Function.comp]

/-- C1: writing an NWBFile, constructed with a named TimeSeries added to its
acquisition category, to a file and reopening that file yields a container on
which get_acquisition with the same name returns a TimeSeries whose name,
resolved data array and timestamps array equal the ones written. -/
theorem write_read_roundtrip (fs : FileSystem) (fname src sd ident : String)
    (ts : TimeSeries) (rows : List (List Int)) (m ld : Bool)
    (fsOut : FileSystem)
    (hfresh : ts.data = DataHandle.fresh rows)
    (hw : writeFile fs fname ((newNWBFile src sd ident).add_acquisition ts)
        m ld = some fsOut) :
    ∃ f2, readFile fsOut fname = some f2 ∧
      ∃ ts2, f2.get_acquisition ts.name = some ts2 ∧
        ts2.name = ts.name ∧
        resolveHandle fsOut ts2.data = some rows ∧
        ts2.timestamps = ts.timestamps := by
  have hser : serializeFile fs m ld ((newNWBFile src sd ident).add_acquisition ts) =
      some { source := src, session_description := sd, identifier := ident,
             acquisition := [(ts.name,
               .record ts.name ts.source (.copy rows) ts.unit ts.timestamps)] } := by
    simp [serializeFile, serializeAcq, serializeTS, hfresh, serializeData,
      newNWBFile, NWBFile.add_acquisition]
  rw [writeFile, hser] at hw
  obtain rfl : updateAssoc fs fname
      { source := src, session_description := sd, identifier := ident,
        acquisition := [(ts.name,
          .record ts.name ts.source (.copy rows) ts.unit ts.timestamps)] } = fsOut := by
    simpa using hw
  have hlook := lookupFile_updateAssoc_self fs fname
    { source := src, session_description := sd, identifier := ident,
      acquisition := [(ts.name,
        .record ts.name ts.source (.copy rows) ts.unit ts.timestamps)] }
  refine ⟨{ source := src, session_description := sd, identifier := ident,
            acquisition := [(ts.name,
              { name := ts.name, source := ts.source,
                data := .stored fname ts.name, unit := ts.unit,
                timestamps := ts.timestamps })],
            stimulus := [] }, ?_, ?_⟩
  · rw [readFile, hlook]
    simp [deserializeAcq, deserializeTS]
  · refine ⟨{ name := ts.name, source := ts.source, data := .stored fname ts.name,
              unit := ts.unit, timestamps := ts.timestamps }, ?_, rfl, ?_, rfl⟩
    · simp [NWBFile.get_acquisition, assocFind]
    · show resolveHandle _ (.stored fname ts.name) = some rows
      simp only [resolveHandle, lookupStoredTS, hlook]
      simp [assocFind, resolveStoredTS, resolveStoredData]

/-- C1 witness: the round trip at a concrete two-by-two data array written to
the file w.nwb. -/
theorem write_read_roundtrip_witness :
    wit_ts.data = DataHandle.fresh wit_rows ∧
    writeFile [] "w.nwb" ((newNWBFile "a" "b" "c").add_acquisition wit_ts)
      false false = some wit_fs ∧
    (∃ f2, readFile wit_fs "w.nwb" = some f2 ∧
      ∃ ts2, f2.get_acquisition wit_ts.name = some ts2 ∧
        ts2.name = wit_ts.name ∧
        resolveHandle wit_fs ts2.data = some wit_rows ∧
        ts2.timestamps = wit_ts.timestamps) :=
  ⟨rfl, rfl,
    write_read_roundtrip [] "w.nwb" "a" "b" "c" wit_ts wit_rows false false
      wit_fs rfl rfl⟩

/-- C8: every element of an aligned and filtered spike array appended to
trial_spikes lies strictly inside the open window from minus before to after,
that is strictly between minus one and three seconds, and equals some
original spike time of the unit minus the stimulus onset time of its trial. -/
theorem spike_window (spikes stims l : List ℚ) (t : ℚ)
    (hl : l ∈ trialSpikes spikes stims) (ht : t ∈ l) :
    (-before < t ∧ t < after) ∧ (-1 < t ∧ t < 3) ∧
    ∃ time, time ∈ stims ∧ ∃ s, s ∈ spikes ∧ t = s - time := by
  rcases List.mem_map.mp hl with ⟨time, htime, rfl⟩
  rcases List.mem_filter.mp ht with ⟨hmem, hpred⟩
  rcases Bool.and_eq_true_iff.mp hpred with ⟨hb, ha⟩
  have hb2 : -before < t := of_decide_eq_true hb
  have ha2 : t < after := of_decide_eq_true ha
  rcases List.mem_map.mp hmem with ⟨s, hs, rfl⟩
  exact ⟨⟨hb2, ha2⟩,
    ⟨by simpa [before] using hb2, by simpa [after] using ha2⟩,
    time, htime, s, hs, rfl⟩

/-- C8 witness: with unit spike times -2, 0, 2, 5 and a single stimulus onset
at 1, the filtered aligned array is the singleton 1, inside the open window. -/
theorem spike_window_witness :
    [(1 : ℚ)] ∈ trialSpikes [-2, 0, 2, 5] [1] ∧ (1 : ℚ) ∈ [(1 : ℚ)] ∧
    ((-before < (1 : ℚ) ∧ (1 : ℚ) < after) ∧ (-1 < (1 : ℚ) ∧ (1 : ℚ) < 3) ∧
      ∃ time, time ∈ [(1 : ℚ)] ∧ ∃ s, s ∈ [(-2 : ℚ), 0, 2, 5] ∧
        (1 : ℚ) = s - time) :=
  ⟨by
      have h1 : alignedSpikes [-2, 0, 2, 5] 1 = [(1 : ℚ)] := by
        norm_num [alignedSpikes, before, after, List.filter]
      simp [trialSpikes, h1],
    by simp,
    spike_window [-2, 0, 2, 5] [1] [(1 : ℚ)] 1
      (by
        have h1 : alignedSpikes [-2, 0, 2, 5] 1 = [(1 : ℚ)] := by
          norm_num [alignedSpikes, before, after, List.filter]
        simp [trialSpikes, h1])
      (by simp)⟩

/-- C3: writing the linking files (filename3 via the shared manager and
filename4 with link_data=True) leaves the stored contents of filename1 and
filename2 unchanged, the newly written files hold references (dataset-level
external links in filename4, container-level external links in filename3)
rather than copies, and reading the linking file resolves the reference to
the data array stored in the source file. -/
theorem linking_frame_and_reference :
    lookupFile fs4 filename1 = lookupFile fs2 filename1 ∧
    lookupFile fs4 filename2 = lookupFile fs2 filename2 ∧
    lookupFile fs3 filename1 = lookupFile fs2 filename1 ∧
    lookupFile fs3 filename2 = lookupFile fs2 filename2 ∧
    lookupStoredTS fs4 filename4 "test_timeseries4" =
      some (.record "test_timeseries4" "PyNWB tutorial"
        (.elink filename1 "test_timeseries1") "SIunit" timestampsArr) ∧
    lookupStoredTS fs4 filename4 "test_timeseries5" =
      some (.record "test_timeseries5" "PyNWB tutorial"
        (.elink filename1 "test_timeseries1") "SIunit" timestampsArr) ∧
    lookupStoredTS fs3 filename3 "test_timeseries1" =
      some (.tslink filename1 "test_timeseries1") ∧
    lookupStoredTS fs3 filename3 "test_timeseries2" =
      some (.tslink filename2 "test_timeseries2") ∧
    ((readFile fs3 filename3).bind (fun f =>
      (f.get_acquisition "test_timeseries1").bind
        (fun ts => resolveHandle fs3 ts.data))) = some dataRows ∧
    ((readFile fs4 filename4).bind (fun f =>
      (f.get_acquisition "test_timeseries4").bind
        (fun ts => resolveHandle fs4 ts.data))) = some dataRows :=
  ⟨rfl, rfl, rfl, rfl, rfl, rfl, rfl, rfl, rfl, rfl⟩

/-- C9: every TimeSeries constructed in the linking script has a data array
whose first dimension has the length of its timestamps array: the data has
shape 100 by 10 and the timestamps have length 100, for each of test_ts1,
test_ts2, test_ts4 and test_ts5. -/
theorem timeseries_dims_match :
    np_reshape (np_arange 1000) 100 10 = some dataRows ∧
    dataRows.length = 100 ∧
    dataRows.all (fun r => r.length == 10) = true ∧
    timestampsArr.length = 100 ∧
    dimMatch fs2 test_ts1 = true ∧
    dimMatch fs2 test_ts2 = true ∧
    dimMatch fs2 test_ts4 = true ∧
    dimMatch fs2 test_ts5 = true ∧
    test_ts1.timestamps.length = 100 ∧
    test_ts2.timestamps.length = 100 ∧
    test_ts4.timestamps.length = 100 ∧
    test_ts5.timestamps.length = 100 :=
  ⟨rfl, rfl, rfl, rfl, rfl, rfl, rfl, rfl, rfl, rfl, rfl, rfl⟩

end NwbGallery
